import Mathlib

/-!
Verification of the cubeb audio API contract (src/include/cubeb.h).

The repository ships only the public header: the result-code enum, the
sample-format enum, the stream-state enum, the callback typedefs and the
operation declarations. Those are embedded here directly from the header,
with C enum semantics (an enumerator without an initializer is the
previous enumerator plus one). The engine that implements the stream
lifecycle is not part of src/, so the lifecycle, pump and callback
behaviour are modelled from the spec, as marked on each definition.
-/

namespace Cubeb

/-- Result code CUBEB_OK from the header enum: explicit initializer 0. -/
def CUBEB_OK : Int := 0

/-- Result code CUBEB_ERROR from the header enum: explicit initializer -1. -/
def CUBEB_ERROR : Int := -1

/-- Result code CUBEB_ERROR_INVALID_FORMAT from the header enum: it carries
no initializer and immediately follows CUBEB_ERROR, so by C enumeration
semantics its value is CUBEB_ERROR + 1. -/
def CUBEB_ERROR_INVALID_FORMAT : Int := CUBEB_ERROR + 1

/-- cubeb_sample_format from the header: the three supported PCM formats. -/
inductive cubeb_sample_format where
  | CUBEB_SAMPLE_U8
  | CUBEB_SAMPLE_S16LE
  | CUBEB_SAMPLE_FLOAT32LE
deriving DecidableEq, Repr

/-- cubeb_stream_params from the header: requested format, rate, channels. -/
structure cubeb_stream_params where
  format : cubeb_sample_format
  rate : Nat
  channels : Nat
deriving DecidableEq, Repr

/-- cubeb_state from the header: the states signaled via state_callback.
The enum has exactly these three enumerators. -/
inductive cubeb_state where
  | CUBEB_STATE_STARTED
  | CUBEB_STATE_STOPPED
  | CUBEB_STATE_DRAINED
deriving DecidableEq, Repr

end Cubeb

namespace Cubeb

/-- Modelled from the spec: the stream lifecycle states of section 4.2
(the engine implementing them is not in src/). CREATED, STARTED, STOPPED,
DRAINED, plus the terminal DESTROYED reached by explicit destroy. -/
inductive Life where
  | CREATED
  | STARTED
  | STOPPED
  | DRAINED
  | DESTROYED
deriving DecidableEq, Repr

/-- Modelled from the spec: the observable attributes of one stream that
the claims mention (the engine stream object is not in src/). volume is
the float of the header modelled as a rational; position counts frames
consumed; halted records a pump halt after the data callback returned the
error sentinel; inCallback records an in-flight data-callback invocation. -/
structure Stream where
  life : Life
  volume : ℚ
  position : Nat
  halted : Bool
  backendRunning : Bool
  inCallback : Bool
deriving DecidableEq, Repr

/-- Modelled from the spec: cubeb_stream_set_volume (its implementation is
not in src/). Section 4.2: fails if v is outside [0.0, 1.0], otherwise the
new volume takes effect; section 7: an Error return means the operation did
not take effect. -/
def stream_set_volume (s : Stream) (v : ℚ) : Int × Stream :=
  if 0 ≤ v ∧ v ≤ 1 then (CUBEB_OK, { s with volume := v })
  else (CUBEB_ERROR, s)

end Cubeb

namespace Cubeb

/-- C1: the header result enum gives CUBEB_ERROR_INVALID_FORMAT the value
CUBEB_ERROR + 1 = 0, which is exactly CUBEB_OK, while CUBEB_ERROR = -1
stays distinct: the three codes are not pairwise distinct, so a caller of
cubeb_stream_init cannot distinguish an invalid-format failure from
success, contradicting the header doc that lists the three retvals of
cubeb_stream_init as distinct outcomes. -/
theorem c1_invalid_format_collides_with_ok :
    CUBEB_ERROR_INVALID_FORMAT = CUBEB_OK ∧ CUBEB_ERROR ≠ CUBEB_OK := by
  constructor
  · rfl
  · decide

/-- C9: the data-callback error sentinel is unambiguous: every conforming
frames-written value fw with 0 ≤ fw ≤ nframes differs from CUBEB_ERROR,
so the engine can always tell an error return from a legitimate count,
including 0 at end of stream. -/
theorem c9_error_sentinel_unambiguous (nframes fw : Int)
    (h0 : 0 ≤ fw) (h1 : fw ≤ nframes) : fw ≠ CUBEB_ERROR := by
  intro h
  rw [h] at h0
  exact absurd h0 (by decide)

theorem c9_error_sentinel_unambiguous_witness :
    (0 : Int) ≤ 0 ∧ (0 : Int) ≤ 4 ∧ (0 : Int) ≠ CUBEB_ERROR :=
  ⟨by decide, by decide, c9_error_sentinel_unambiguous 4 0 (by decide) (by decide)⟩

/-- C10: the set of states deliverable through the state callback is
closed: every cubeb_state value is one of STARTED, STOPPED, DRAINED,
these three are pairwise distinct, and no further value (no dedicated
error or shutdown state) exists in the enum. -/
theorem c10_state_enum_closed :
    (∀ st : cubeb_state,
       st = cubeb_state.CUBEB_STATE_STARTED ∨
       st = cubeb_state.CUBEB_STATE_STOPPED ∨
       st = cubeb_state.CUBEB_STATE_DRAINED) ∧
    cubeb_state.CUBEB_STATE_STARTED ≠ cubeb_state.CUBEB_STATE_STOPPED ∧
    cubeb_state.CUBEB_STATE_STOPPED ≠ cubeb_state.CUBEB_STATE_DRAINED ∧
    cubeb_state.CUBEB_STATE_STARTED ≠ cubeb_state.CUBEB_STATE_DRAINED := by
  refine ⟨fun st => ?_, by decide, by decide, by decide⟩
  cases st
  · exact Or.inl rfl
  · exact Or.inr (Or.inl rfl)
  · exact Or.inr (Or.inr rfl)

/-- C2: stream_set_volume with v outside [0.0, 1.0] returns the generic
error and leaves the previously set volume unchanged; with v inside
[0.0, 1.0] it returns OK and the volume becomes v. -/
theorem c2_set_volume_range (s : Stream) (v : ℚ) :
    (¬ (0 ≤ v ∧ v ≤ 1) →
       (stream_set_volume s v).1 = CUBEB_ERROR ∧
       (stream_set_volume s v).2.volume = s.volume) ∧
    ((0 ≤ v ∧ v ≤ 1) →
       (stream_set_volume s v).1 = CUBEB_OK ∧
       (stream_set_volume s v).2.volume = v) := by
  constructor
  · intro h
    simp [stream_set_volume, h]
  · intro h
    simp [stream_set_volume, h]

theorem c2_set_volume_range_witness :
    ((¬ ((0 : ℚ) ≤ 3/2 ∧ (3/2 : ℚ) ≤ 1) →
        (stream_set_volume ⟨Life.CREATED, 1/4, 0, false, false, false⟩ (3/2)).1 = CUBEB_ERROR ∧
        (stream_set_volume ⟨Life.CREATED, 1/4, 0, false, false, false⟩ (3/2)).2.volume = 1/4) ∧
     (((0 : ℚ) ≤ 3/2 ∧ (3/2 : ℚ) ≤ 1) →
        (stream_set_volume ⟨Life.CREATED, 1/4, 0, false, false, false⟩ (3/2)).1 = CUBEB_OK ∧
        (stream_set_volume ⟨Life.CREATED, 1/4, 0, false, false, false⟩ (3/2)).2.volume = 3/2)) :=
  c2_set_volume_range ⟨Life.CREATED, 1/4, 0, false, false, false⟩ (3/2)

end Cubeb

namespace Cubeb

/-- Modelled from the spec: the events of one stream lifetime (the engine
and its pump are not in src/). API calls are start, the return point of a
blocking stop, destroy, setVolume and getPosition; the pump contributes
cbBegin, the moment a data-callback invocation begins, and cbEnd, the
moment the in-flight invocation returns ret for a requested frame count
nframes. Splitting an invocation into begin and end events is how an
in-flight invocation is represented in an interleaving model. -/
inductive Ev where
  | start
  | stopReturn
  | destroy
  | cbBegin
  | cbEnd (nframes ret : Int)
  | setVolume (v : ℚ)
  | getPosition
deriving DecidableEq, Repr

/-- Modelled from the spec: what a step makes visible to the application:
the result code of an API call, a state-callback notification, the fact
that a data-callback invocation began, and a reported position. -/
inductive Obs where
  | ret (code : Int)
  | stateCb (st : cubeb_state)
  | cbInvoked
  | pos (frames : Nat)
deriving DecidableEq, Repr

/-- Modelled from the spec: one step of the stream engine (the engine is
not in src/). none means the event cannot occur at this point: nothing
happens on a destroyed stream, a blocking stop or destroy returns only
once no invocation is in flight, and the pump begins invocations only in
STARTED with the pump not halted and no invocation already active.
Section 4.2: start moves CREATED or STOPPED to STARTED and signals
STATE_STARTED; stop moves STARTED to STOPPED after quiescence and signals
STATE_STOPPED; destroy reaches DESTROYED from any state and implicitly
stops the backend. Section 4.3: a data callback returning the error
sentinel halts the pump, stops the backend and notifies once through the
state callback, terminal until destroyed; returning fewer than nframes
frames starts the drain, after which the pump signals a final
STATE_DRAINED and stops invoking the callback; returning nframes forwards
nframes frames to the backend. -/
def step (s : Stream) (e : Ev) : Option (Stream × List Obs) :=
  if s.life = Life.DESTROYED then none else
  match e with
  | Ev.start =>
      if (s.life = Life.CREATED ∨ s.life = Life.STOPPED) ∧ s.halted = false then
        some ({ s with life := Life.STARTED, backendRunning := true },
              [Obs.ret CUBEB_OK, Obs.stateCb cubeb_state.CUBEB_STATE_STARTED])
      else
        some (s, [Obs.ret CUBEB_ERROR])
  | Ev.stopReturn =>
      if s.inCallback = true then none else
      if s.life = Life.STARTED then
        some ({ s with life := Life.STOPPED, backendRunning := false },
              [Obs.ret CUBEB_OK, Obs.stateCb cubeb_state.CUBEB_STATE_STOPPED])
      else
        some (s, [Obs.ret CUBEB_ERROR])
  | Ev.destroy =>
      if s.inCallback = true then none else
      some ({ s with life := Life.DESTROYED, backendRunning := false }, [])
  | Ev.cbBegin =>
      if s.life = Life.STARTED ∧ s.halted = false ∧ s.inCallback = false then
        some ({ s with inCallback := true }, [Obs.cbInvoked])
      else none
  | Ev.cbEnd nframes ret =>
      if s.inCallback = true ∧ s.life = Life.STARTED then
        if ret = CUBEB_ERROR then
          some ({ s with inCallback := false, life := Life.STOPPED,
                         halted := true, backendRunning := false },
                [Obs.stateCb cubeb_state.CUBEB_STATE_STOPPED])
        else if ret < nframes then
          some ({ s with inCallback := false, life := Life.DRAINED,
                         backendRunning := false,
                         position := s.position + ret.toNat },
                [Obs.stateCb cubeb_state.CUBEB_STATE_DRAINED])
        else
          some ({ s with inCallback := false,
                         position := s.position + nframes.toNat }, [])
      else none
  | Ev.setVolume v =>
      some ((stream_set_volume s v).2, [Obs.ret (stream_set_volume s v).1])
  | Ev.getPosition =>
      some (s, [Obs.ret CUBEB_OK, Obs.pos s.position])

/-- One recorded step of a run: the event, the state after it, and the
observations it produced. -/
abbrev Entry := Ev × Stream × List Obs

/-- Modelled from the spec: the valid runs of the engine from a given
state, as lists of recorded steps each justified by the step function. -/
inductive Trace : Stream → List Entry → Prop where
  | nil (s : Stream) : Trace s []
  | cons {s s' : Stream} {e : Ev} {obs : List Obs} {rest : List Entry} :
      step s e = some (s', obs) → Trace s' rest →
      Trace s ((e, s', obs) :: rest)

end Cubeb

namespace Cubeb

/-- Modelled from the spec: states from which the pump never runs again:
a halted pump (error sentinel already returned, the stream left STARTED),
a drained stream, and a destroyed stream. Section 7: such a stream has no
further data flow until destroyed. -/
def Dead (s : Stream) : Prop :=
  (s.halted = true ∧ s.life ≠ Life.STARTED) ∨
  s.life = Life.DRAINED ∨ s.life = Life.DESTROYED

lemma dead_step {s s' : Stream} {e : Ev} {obs : List Obs}
    (hd : Dead s) (h : step s e = some (s', obs)) :
    Dead s' ∧ Obs.cbInvoked ∉ obs ∧ ∀ st, Obs.stateCb st ∉ obs := by
  obtain ⟨life, vol, pos, halted, br, inc⟩ := s
  cases life <;> cases halted <;> cases inc <;> cases e <;>
    simp_all [step, stream_set_volume, Dead] <;>
    (try split_ifs at h) <;>
    (try obtain ⟨rfl, rfl⟩ := h) <;>
    simp [Dead]

end Cubeb

namespace Cubeb

lemma dead_trace {tr : List Entry} :
    ∀ {s : Stream}, Trace s tr → Dead s →
      ∀ en ∈ tr, Obs.cbInvoked ∉ en.2.2 ∧ ∀ st, Obs.stateCb st ∉ en.2.2 := by
  induction tr with
  | nil =>
      intro s _ _ en hen
      cases hen
  | cons head rest ih =>
      intro s ht hd en hen
      cases ht with
      | cons hstep htr =>
          obtain ⟨hd', hcb, hst⟩ := dead_step hd hstep
          cases hen with
          | head => exact ⟨hcb, hst⟩
          | tail _ hen => exact ih htr hd' en hen

/-- Modelled from the spec: a stream that is not STARTED and has no
invocation in flight; the pump is quiescent and stays so until a
successful start. -/
def Quiet (s : Stream) : Prop :=
  s.life ≠ Life.STARTED ∧ s.inCallback = false

lemma quiet_step {s s' : Stream} {e : Ev} {obs : List Obs}
    (hq : Quiet s) (hne : e ≠ Ev.start) (h : step s e = some (s', obs)) :
    Quiet s' ∧ Obs.cbInvoked ∉ obs := by
  obtain ⟨life, vol, pos, halted, br, inc⟩ := s
  cases life <;> cases halted <;> cases inc <;> cases e <;>
    simp_all [step, stream_set_volume, Quiet] <;>
    (try split_ifs at h) <;>
    (try obtain ⟨rfl, rfl⟩ := h) <;>
    simp [Quiet]

lemma quiet_trace {tr : List Entry} :
    ∀ {s : Stream}, Trace s tr → Quiet s → (∀ en ∈ tr, en.1 ≠ Ev.start) →
      ∀ en ∈ tr, Obs.cbInvoked ∉ en.2.2 := by
  induction tr with
  | nil =>
      intro s _ _ _ en hen
      cases hen
  | cons head rest ih =>
      intro s ht hq hns en hen
      cases ht with
      | cons hstep htr =>
          have hne := hns _ (List.mem_cons_self _ _)
          obtain ⟨hq', hcb⟩ := quiet_step hq hne hstep
          cases hen with
          | head => exact hcb
          | tail _ hen =>
              exact ih htr hq' (fun x hx => hns x (List.mem_cons_of_mem _ hx)) en hen

lemma step_position_mono {s s' : Stream} {e : Ev} {obs : List Obs}
    (h : step s e = some (s', obs)) : s.position ≤ s'.position := by
  obtain ⟨life, vol, pos, halted, br, inc⟩ := s
  cases life <;> cases halted <;> cases inc <;> cases e <;>
    simp_all [step, stream_set_volume] <;>
    (try split_ifs at h) <;>
    (try obtain ⟨rfl, rfl⟩ := h) <;>
    simp

lemma step_pos_obs {s s' : Stream} {e : Ev} {obs : List Obs} {p : Nat}
    (h : step s e = some (s', obs)) (hp : Obs.pos p ∈ obs) :
    p = s.position ∧ s'.position = s.position := by
  obtain ⟨life, vol, pos, halted, br, inc⟩ := s
  cases life <;> cases halted <;> cases inc <;> cases e <;>
    simp_all [step, stream_set_volume] <;>
    (try split_ifs at h) <;>
    (try obtain ⟨rfl, rfl⟩ := h) <;>
    simp_all

lemma trace_drop {t2 : List Entry} :
    ∀ (t1 : List Entry) {s : Stream}, Trace s (t1 ++ t2) →
      ∃ m : Stream, Trace m t2 ∧ s.position ≤ m.position := by
  intro t1
  induction t1 with
  | nil =>
      intro s ht
      exact ⟨s, ht, le_refl _⟩
  | cons head t1 ih =>
      intro s ht
      cases ht with
      | cons hstep htr =>
          obtain ⟨m, hm, hle⟩ := ih htr
          exact ⟨m, hm, le_trans (step_position_mono hstep) hle⟩

end Cubeb

namespace Cubeb

/-- A started stream with no invocation in flight, used as concrete input. -/
def exampleStarted : Stream :=
  { life := Life.STARTED, volume := 1, position := 0, halted := false,
    backendRunning := true, inCallback := false }

/-- A started stream with a data-callback invocation in flight. -/
def exampleInCb : Stream :=
  { life := Life.STARTED, volume := 1, position := 0, halted := false,
    backendRunning := true, inCallback := true }

/-- C3: when a data-callback invocation returns a frames-written count
0 ≤ r strictly below the requested count n, the stream transitions to
DRAINED, the step issues the STATE_DRAINED notification, and along every
subsequent run of the engine no data-callback invocation begins and no
further state notification is delivered, so the STATE_DRAINED one is
final. -/
theorem c3_short_write_drains (s s' : Stream) (n r : Int) (obs : List Obs)
    (h0 : 0 ≤ r) (hr : r < n)
    (h : step s (Ev.cbEnd n r) = some (s', obs)) :
    s'.life = Life.DRAINED ∧
    obs = [Obs.stateCb cubeb_state.CUBEB_STATE_DRAINED] ∧
    ∀ tr, Trace s' tr → ∀ en ∈ tr,
      Obs.cbInvoked ∉ en.2.2 ∧ ∀ st, Obs.stateCb st ∉ en.2.2 := by
  have hne : ¬ (r = CUBEB_ERROR) := by
    simp only [CUBEB_ERROR]
    omega
  by_cases hd : s.life = Life.DESTROYED
  · simp [step, hd] at h
  · simp only [step, if_neg hd] at h
    by_cases hg : s.inCallback = true ∧ s.life = Life.STARTED
    · rw [if_pos hg, if_neg hne, if_pos hr] at h
      simp only [Option.some.injEq, Prod.mk.injEq] at h
      obtain ⟨h1, h2⟩ := h
      subst h1
      subst h2
      refine ⟨rfl, rfl, fun tr htr en hen => ?_⟩
      exact dead_trace htr (Or.inr (Or.inl rfl)) en hen
    · rw [if_neg hg] at h
      exact Option.noConfusion h

theorem c3_short_write_drains_witness :
    ({ life := Life.DRAINED, volume := 1, position := 2, halted := false,
       backendRunning := false, inCallback := false } : Stream).life =
      Life.DRAINED :=
  (c3_short_write_drains exampleInCb
    { life := Life.DRAINED, volume := 1, position := 2, halted := false,
      backendRunning := false, inCallback := false }
    4 2 [Obs.stateCb cubeb_state.CUBEB_STATE_DRAINED]
    (by decide) (by decide) (by decide)).1

/-- C4: when a data-callback invocation returns the error sentinel
CUBEB_ERROR, the pump halts and the backend stops, the application is
notified through the state callback exactly once (the halting step
delivers one notification and no later step delivers any), and no
data-callback invocation ever begins again: the stream has no further
data flow until destroyed. -/
theorem c4_error_sentinel_halts (s s' : Stream) (n : Int) (obs : List Obs)
    (h : step s (Ev.cbEnd n CUBEB_ERROR) = some (s', obs)) :
    s'.halted = true ∧ s'.backendRunning = false ∧ s'.life = Life.STOPPED ∧
    obs = [Obs.stateCb cubeb_state.CUBEB_STATE_STOPPED] ∧
    ∀ tr, Trace s' tr → ∀ en ∈ tr,
      Obs.cbInvoked ∉ en.2.2 ∧ ∀ st, Obs.stateCb st ∉ en.2.2 := by
  by_cases hd : s.life = Life.DESTROYED
  · simp [step, hd] at h
  · simp only [step, if_neg hd] at h
    by_cases hg : s.inCallback = true ∧ s.life = Life.STARTED
    · rw [if_pos hg] at h
      rw [if_pos trivial] at h
      simp only [Option.some.injEq, Prod.mk.injEq] at h
      obtain ⟨h1, h2⟩ := h
      subst h1
      subst h2
      refine ⟨rfl, rfl, rfl, rfl, fun tr htr en hen => ?_⟩
      exact dead_trace htr (Or.inl ⟨rfl, by simp⟩) en hen
    · rw [if_neg hg] at h
      exact Option.noConfusion h

theorem c4_error_sentinel_halts_witness :
    ({ life := Life.STOPPED, volume := 1, position := 0, halted := true,
       backendRunning := false, inCallback := false } : Stream).halted = true :=
  (c4_error_sentinel_halts exampleInCb
    { life := Life.STOPPED, volume := 1, position := 0, halted := true,
      backendRunning := false, inCallback := false }
    4 [Obs.stateCb cubeb_state.CUBEB_STATE_STOPPED]
    (by decide)).1

/-- C5: the return point of a blocking stream_stop occurs only when no
data-callback invocation is in flight; when the stream was STARTED the
stop succeeds, the STATE_STOPPED notification is signaled at that
quiescent point, and afterwards no data-callback invocation begins in
any run of the engine that contains no further start call. -/
theorem c5_stop_quiesces (s s' : Stream) (obs : List Obs)
    (h : step s Ev.stopReturn = some (s', obs)) :
    s.inCallback = false ∧
    (s.life = Life.STARTED →
      s'.life = Life.STOPPED ∧ s'.inCallback = false ∧
      obs = [Obs.ret CUBEB_OK, Obs.stateCb cubeb_state.CUBEB_STATE_STOPPED] ∧
      ∀ tr, Trace s' tr → (∀ en ∈ tr, en.1 ≠ Ev.start) →
        ∀ en ∈ tr, Obs.cbInvoked ∉ en.2.2) := by
  by_cases hd : s.life = Life.DESTROYED
  · simp [step, hd] at h
  · simp only [step, if_neg hd] at h
    by_cases hic : s.inCallback = true
    · rw [if_pos hic] at h
      exact Option.noConfusion h
    · rw [if_neg hic] at h
      have hicf : s.inCallback = false := Bool.eq_false_iff.mpr hic
      refine ⟨hicf, fun hl => ?_⟩
      rw [if_pos hl] at h
      simp only [Option.some.injEq, Prod.mk.injEq] at h
      obtain ⟨h1, h2⟩ := h
      subst h1
      subst h2
      refine ⟨rfl, hicf, rfl, fun tr htr hns en hen => ?_⟩
      exact quiet_trace htr ⟨by simp, hicf⟩ hns en hen

theorem c5_stop_quiesces_witness :
    exampleStarted.inCallback = false :=
  (c5_stop_quiesces exampleStarted
    { life := Life.STOPPED, volume := 1, position := 0, halted := false,
      backendRunning := false, inCallback := false }
    [Obs.ret CUBEB_OK, Obs.stateCb cubeb_state.CUBEB_STATE_STOPPED]
    (by decide)).1

end Cubeb

namespace Cubeb

/-- The stream exampleStarted after one full invocation wrote 4 frames. -/
def exampleAfterCb : Stream :=
  { life := Life.STARTED, volume := 1, position := 4, halted := false,
    backendRunning := true, inCallback := false }

/-- A freshly created stream, used as concrete input. -/
def exampleCreated : Stream :=
  { life := Life.CREATED, volume := 1, position := 0, halted := false,
    backendRunning := false, inCallback := false }

/-- C6: along every run of the engine, a position reported by an earlier
get-position step is at most a position reported by a later get-position
step: stream_get_position is non-decreasing across successive calls. The
statement holds along the whole run, so in particular while the stream
remains in STARTED after a successful start. -/
theorem c6_get_position_monotone (s : Stream) (t1 : List Entry) (e1 : Entry)
    (t2 : List Entry) (e2 : Entry) (t3 : List Entry) (p q : Nat)
    (ht : Trace s (t1 ++ e1 :: (t2 ++ e2 :: t3)))
    (hp : Obs.pos p ∈ e1.2.2) (hq : Obs.pos q ∈ e2.2.2) : p ≤ q := by
  obtain ⟨m1, hm1, _⟩ := trace_drop t1 ht
  cases hm1 with
  | cons hstep htr =>
      obtain ⟨hp1, hp2⟩ := step_pos_obs hstep hp
      obtain ⟨m2, hm2, hle⟩ := trace_drop t2 htr
      cases hm2 with
      | cons hstep2 htr2 =>
          obtain ⟨hq1, _⟩ := step_pos_obs hstep2 hq
          omega

theorem c6_get_position_monotone_witness : (0 : Nat) ≤ 4 :=
  c6_get_position_monotone exampleStarted []
    (Ev.getPosition, exampleStarted, [Obs.ret CUBEB_OK, Obs.pos 0])
    [(Ev.cbBegin, exampleInCb, [Obs.cbInvoked]),
     (Ev.cbEnd 4 4, exampleAfterCb, [])]
    (Ev.getPosition, exampleAfterCb, [Obs.ret CUBEB_OK, Obs.pos 4])
    [] 0 4
    (Trace.cons (by decide)
      (Trace.cons (by decide)
        (Trace.cons (by decide)
          (Trace.cons (by decide) (Trace.nil exampleAfterCb)))))
    (by decide) (by decide)

/-- Modelled from the spec: the transitions the section 4.2 state machine
allows, read together with the note that DRAINED is reachable from
STARTED and DESTROYED is terminal and reachable from any state: staying
put, CREATED to STARTED, STOPPED to STARTED, STARTED to STOPPED, STARTED
to DRAINED, and any non-DESTROYED state to DESTROYED. -/
def LifeEdge (a b : Life) : Prop :=
  a = b ∨
  (a = Life.CREATED ∧ b = Life.STARTED) ∨
  (a = Life.STOPPED ∧ b = Life.STARTED) ∨
  (a = Life.STARTED ∧ b = Life.STOPPED) ∨
  (a = Life.STARTED ∧ b = Life.DRAINED) ∨
  (b = Life.DESTROYED ∧ a ≠ Life.DESTROYED)

/-- C7: every step of the engine follows the lifecycle state machine: no
step starts from DESTROYED, every step moves along an edge of the
machine, a successful start moves CREATED or STOPPED to STARTED, a
successful stop moves STARTED to STOPPED; and destroy is available from
every non-destroyed quiescent state and reaches DESTROYED. -/
theorem c7_lifecycle_state_machine :
    (∀ (s : Stream) (e : Ev) (s' : Stream) (obs : List Obs),
       step s e = some (s', obs) →
       s.life ≠ Life.DESTROYED ∧ LifeEdge s.life s'.life ∧
       (e = Ev.start → Obs.ret CUBEB_OK ∈ obs →
          (s.life = Life.CREATED ∨ s.life = Life.STOPPED) ∧
          s'.life = Life.STARTED) ∧
       (e = Ev.stopReturn → Obs.ret CUBEB_OK ∈ obs →
          s.life = Life.STARTED ∧ s'.life = Life.STOPPED)) ∧
    (∀ s : Stream, s.life ≠ Life.DESTROYED → s.inCallback = false →
       ∃ (s' : Stream) (obs : List Obs),
         step s Ev.destroy = some (s', obs) ∧ s'.life = Life.DESTROYED) := by
  constructor
  · intro s e s' obs h
    obtain ⟨life, vol, pos, halted, br, inc⟩ := s
    cases life <;> cases halted <;> cases inc <;> cases e <;>
      simp_all [step, stream_set_volume, LifeEdge, CUBEB_OK, CUBEB_ERROR] <;>
      (try split_ifs at h) <;>
      (try obtain ⟨rfl, rfl⟩ := h) <;>
      simp [LifeEdge, CUBEB_OK, CUBEB_ERROR]
  · intro s hd hic
    refine ⟨{ s with life := Life.DESTROYED, backendRunning := false }, [], ?_, rfl⟩
    simp [step, hd, hic]

theorem c7_lifecycle_state_machine_witness :
    LifeEdge Life.CREATED Life.STARTED :=
  (c7_lifecycle_state_machine.1 exampleCreated Ev.start exampleStarted
    [Obs.ret CUBEB_OK, Obs.stateCb cubeb_state.CUBEB_STATE_STARTED]
    (by decide)).2.1

/-- C8: a data-callback invocation begins only when no invocation is in
flight (at most one active invocation at a time) and only while the
stream is STARTED with the pump not halted, never in the terminal
DRAINED state and never after DESTROYED. -/
theorem c8_no_concurrent_invocation :
    ∀ (s : Stream) (e : Ev) (s' : Stream) (obs : List Obs),
      step s e = some (s', obs) → Obs.cbInvoked ∈ obs →
      s.inCallback = false ∧ s'.inCallback = true ∧
      s.life = Life.STARTED ∧ s.halted = false ∧
      s.life ≠ Life.DRAINED ∧ s.life ≠ Life.DESTROYED := by
  intro s e s' obs h hm
  obtain ⟨life, vol, pos, halted, br, inc⟩ := s
  cases life <;> cases halted <;> cases inc <;> cases e <;>
    simp_all [step, stream_set_volume] <;>
    (try split_ifs at h) <;>
    (try obtain ⟨rfl, rfl⟩ := h) <;>
    simp_all

theorem c8_no_concurrent_invocation_witness :
    exampleStarted.inCallback = false ∧ exampleInCb.inCallback = true :=
  have h := c8_no_concurrent_invocation exampleStarted Ev.cbBegin exampleInCb
    [Obs.cbInvoked] (by decide) (by decide)
  ⟨h.1, h.2.1⟩

end Cubeb
